import Mathlib

/-!
# client-api: startup lifecycle and the two read-only endpoints

A shallow embedding of `src/api/main.go`.

The Go program talks to three things it does not define: the process
environment (`os.Getenv`, `log`), the MongoDB driver (`mongo.Connect`,
`Client.Ping`, `Collection.CountDocuments`) and the Fiber framework
(`fiber.New`, `app.Get`, `app.Listen`, `c.Status`, `c.JSON`).  They are the
`World` below: every answer the outside gives is a field of `World`, every call
the program makes to the outside is recorded as an `Event` (startup) or a
`DbOp` (request handling), in program order.

`log.Fatal` / `log.Fatalf` print and then call `os.Exit(1)`: the process ends
there and deferred calls do not run.
-/

namespace ClientApi

/-! ## Data model -/

/-- The value of `time.Second`: a `time.Duration` counts nanoseconds. -/
def second : Nat := 1000000000

/-- A `context.Context`, as far as the program builds them: `context.Background()`
or a `context.WithTimeout` child carrying its duration in nanoseconds. -/
inductive Context where
  | background
  | withTimeout (parent : Context) (d : Nat)
  deriving DecidableEq, Repr

/-- An `error` value returned by the driver; `msg` is what `%v` prints. -/
structure DriverError where
  msg : String
  deriving DecidableEq, Repr

/-- A non-nil `*mongo.Client` handle as returned by a successful `mongo.Connect`. -/
structure Client where
  handle : Nat
  deriving DecidableEq, Repr

/-- The values the program puts in a `fiber.Map`: a string or an `int64`. -/
inductive JVal where
  | str (s : String)
  | int (n : Int)
  deriving DecidableEq, Repr

/-- A `fiber.Map` (`map[string]interface{}`), as the list of its entries. -/
abbrev FiberMap := List (String × JVal)

/-- The package-level variables of the program: `var client *mongo.Client`,
`none` being the nil pointer it starts as. -/
structure Globals where
  client : Option Client
  deriving DecidableEq, Repr

/-- A call the startup code makes to the outside, in program order. -/
inductive Event where
  | getenv (key : String)
  | withTimeout (ctx : Context)
  | cancel (ctx : Context)
  | connect (ctx : Context) (uri : String)
  | ping (cl : Client) (ctx : Context)
  | println (msg : String)
  | fatal (msg : String)
  | fiberNew
  | get (path : String)
  | listen (addr : String)
  deriving DecidableEq, Repr

/-- A database operation of the driver's collection API. -/
inductive DbOp where
  | countDocuments (db coll : String) (ctx : Context) (filter : FiberMap)
  | insertOne (db coll : String) (doc : FiberMap)
  | updateOne (db coll : String) (filter : FiberMap) (doc : FiberMap)
  | deleteOne (db coll : String) (filter : FiberMap)
  deriving DecidableEq, Repr

/-- What `CountDocuments` answers: the Go pair `(int64, error)`. -/
abbrev CountResult := Int × Option DriverError

/-- The outside of the program.
* `env`: the process environment (`os.Getenv` gives `""` for an unset name);
* `connect ctx uri`: the result of `mongo.Connect(ctx, options.Client().ApplyURI(uri))`,
  an error (with a nil client) or a client;
* `ping cl ctx`: the result of `cl.Ping(ctx, nil)`, `none` being a nil error;
* `countDocuments cl db coll ctx filter`: the result of
  `cl.Database(db).Collection(coll).CountDocuments(ctx, filter)`;
* `listen addr`: `none` when `app.Listen(addr)` never returns (the server keeps
  serving), `some msg` when it returns a value that `log.Fatal` prints as `msg`. -/
structure World where
  env : List (String × String)
  connect : Context → String → Except DriverError Client
  ping : Client → Context → Option DriverError
  countDocuments : Client → String → String → Context → FiberMap → CountResult
  listen : String → Option String

/-- The call `os.Getenv(key)`: the value of the variable, `""` when it is unset. -/
def getenv (env : List (String × String)) (key : String) : String :=
  (env.lookup key).getD ""

/-- How a function of the program ends: it returns to its caller, or the
process exits with a status code inside it. -/
inductive Outcome where
  | returned
  | exited (code : Nat)
  deriving DecidableEq, Repr

/-- An execution of `connectMongo`: how it ended, the calls it made, and the
globals it left. -/
structure Run where
  outcome : Outcome
  trace : List Event
  globals : Globals
  deriving DecidableEq, Repr

/-! ## `connectMongo` (main.go 18-42) -/

/-- The context `connectMongo` creates on line 25:
`context.WithTimeout(context.Background(), 10*time.Second)`. -/
def startupCtx : Context := .withTimeout .background (10 * second)

/-- The function `connectMongo`.  Line 19 reads `MONGO_URI`; lines 20-22 exit when it
is empty; line 25 creates the context and line 26 defers its `cancel`; line 30
assigns the global `client` from `mongo.Connect` and lines 31-33 exit on its
error; line 36 pings and lines 37-39 exit on its error; line 41 logs, and the
deferred `cancel` runs as the function returns. -/
def connectMongo (w : World) (g : Globals) : Run :=
  let mongoURI := getenv w.env "MONGO_URI"
  if mongoURI = "" then
    { outcome := .exited 1
      trace := [.getenv "MONGO_URI", .fatal "MONGO_URI not set"]
      globals := g }
  else
    let ctx := startupCtx
    match w.connect ctx mongoURI with
    | .error err =>
      { outcome := .exited 1
        trace := [.getenv "MONGO_URI", .withTimeout ctx, .connect ctx mongoURI,
                  .fatal ("Mongo connection error: " ++ err.msg)]
        globals := { g with client := none } }
    | .ok cl =>
      match w.ping cl ctx with
      | some err =>
        { outcome := .exited 1
          trace := [.getenv "MONGO_URI", .withTimeout ctx, .connect ctx mongoURI,
                    .ping cl ctx, .fatal ("Mongo ping failed: " ++ err.msg)]
          globals := { g with client := some cl } }
      | none =>
        { outcome := .returned
          trace := [.getenv "MONGO_URI", .withTimeout ctx, .connect ctx mongoURI,
                    .ping cl ctx, .println "✅ Connected to MongoDB", .cancel ctx]
          globals := { g with client := some cl } }

/-! ## Requests, responses and the two handlers (main.go 50-62) -/

/-- An incoming HTTP request, as far as routing sees it. -/
structure Request where
  method : String
  path : String
  deriving DecidableEq, Repr

/-- The response a handler builds. `json` is the value handed to `c.JSON`,
`none` while no body was written. -/
structure Response where
  status : Nat
  contentType : String
  json : Option FiberMap
  deriving DecidableEq, Repr

/-- A `*fiber.Ctx`: the request and the response under construction. -/
structure Ctx where
  req : Request
  resp : Response
  deriving DecidableEq, Repr

/-- The constant `http.StatusOK`. -/
def StatusOK : Nat := 200

/-- The context Fiber hands to a handler for a new request: the response starts
with status 200 and no body. -/
def acquireCtx (req : Request) : Ctx :=
  { req := req, resp := { status := StatusOK, contentType := "", json := none } }

/-- The call `c.Status(code)`: sets the response status. -/
def Ctx.Status (c : Ctx) (code : Nat) : Ctx :=
  { c with resp := { c.resp with status := code } }

/-- The call `c.JSON(data)`: writes `data` as the JSON body and sets the content
type; the status is left as it is. -/
def Ctx.JSON (c : Ctx) (data : FiberMap) : Ctx :=
  { c with resp := { c.resp with contentType := "application/json", json := some data } }

/-- How a handler ends: it returns its `error` (`none` is nil), or it panics. -/
inductive HandlerOutcome where
  | returned (err : Option String)
  | panicked (msg : String)
  deriving DecidableEq, Repr

/-- An execution of a handler: how it ended, the context it left, the database
operations it issued in order, and the globals it left. -/
structure HandlerRun where
  outcome : HandlerOutcome
  ctx : Ctx
  ops : List DbOp
  globals : Globals
  deriving DecidableEq, Repr

/-- A Fiber handler `func(c *fiber.Ctx) error`, run against the outside and the
program's globals. -/
abbrev Handler := World → Globals → Ctx → HandlerRun

/-- The handler of `/health` (lines 50-54):
`c.Status(http.StatusOK).JSON(fiber.Map with "status" set to "healthy")`. -/
def healthHandler : Handler := fun _ g c =>
  { outcome := .returned none
    ctx := (c.Status StatusOK).JSON [("status", .str "healthy")]
    ops := []
    globals := g }

/-- The handler of `/clients` (lines 58-62).  Line 59 takes the collection
`clients` of database `clientsdb` from the global `client` (a nil client is
dereferenced there, which panics); line 60 counts with the empty `fiber.Map` as
filter under `context.Background()` and drops the error; line 61 writes the
count under `clients_count`. -/
def clientsHandler : Handler := fun w g c =>
  match g.client with
  | none =>
    { outcome := .panicked "invalid memory address or nil pointer dereference"
      ctx := c, ops := [], globals := g }
  | some cl =>
    let r := w.countDocuments cl "clientsdb" "clients" .background []
    let count := r.1
    { outcome := .returned none
      ctx := c.JSON [("clients_count", .int count)]
      ops := [.countDocuments "clientsdb" "clients" .background []]
      globals := g }

/-! ## `main` (main.go 44-66) -/

/-- A registered route. -/
structure Route where
  method : String
  path : String
  handler : Handler

/-- A `*fiber.App`: the routes registered on it, in registration order. -/
structure App where
  routes : List Route

/-- The call `fiber.New()`: an app without routes. -/
def fiberNew : App := { routes := [] }

/-- The call `app.Add(method, path, h)`: appends one route for `method` on `path`. -/
def App.Add (app : App) (method path : String) (h : Handler) : App :=
  { routes := app.routes ++ [{ method := method, path := path, handler := h }] }

/-- The call `app.Head(path, h)`: registers `h` for method HEAD on `path`. -/
def App.Head (app : App) (path : String) (h : Handler) : App :=
  app.Add "HEAD" path h

/-- The call `app.Get(path, h)` of Fiber v2 (the version the source imports),
which is `app.Head(path, h).Add(MethodGet, path, h)`: the handler is registered
for HEAD and then for GET on `path`. -/
def App.Get (app : App) (path : String) (h : Handler) : App :=
  (app.Head path h).Add "GET" path h

/-- How `main` ends: the process exits, or `app.Listen` never returns and the
server keeps serving. -/
inductive MainOutcome where
  | exited (code : Nat)
  | serving
  deriving DecidableEq, Repr

/-- An execution of `main`. -/
structure MainRun where
  outcome : MainOutcome
  trace : List Event
  globals : Globals
  app : App

/-- The function `main`.  Line 45 creates the app, line 47 runs `connectMongo` (the
process may exit inside it), lines 50 and 58 call `app.Get` for the two handlers, line 65
listens on `:8080` and exits through `log.Fatal` if `Listen` returns. -/
def main (w : World) : MainRun :=
  let app := fiberNew
  let r := connectMongo w { client := none }
  match r.outcome with
  | .exited code =>
    { outcome := .exited code, trace := .fiberNew :: r.trace, globals := r.globals, app := app }
  | .returned =>
    let app := app.Get "/health" healthHandler
    let app := app.Get "/clients" clientsHandler
    let t := .fiberNew :: r.trace ++ [.get "/health", .get "/clients", .listen ":8080"]
    match w.listen ":8080" with
    | none =>
      { outcome := .serving, trace := t, globals := r.globals, app := app }
    | some msg =>
      { outcome := .exited 1, trace := t ++ [.fatal msg], globals := r.globals, app := app }

/-! ## Classifying events and operations -/

/-- Is the event a call of `mongo.Connect`? -/
def Event.isConnect : Event → Bool
  | .connect _ _ => true
  | _ => false

/-- Is the event a call of `Client.Ping`? -/
def Event.isPing : Event → Bool
  | .ping _ _ => true
  | _ => false

/-- Is the event a call of `context.WithTimeout`? -/
def Event.isWithTimeout : Event → Bool
  | .withTimeout _ => true
  | _ => false

/-- Is the event a route registration (`app.Get`)? -/
def Event.isGet : Event → Bool
  | .get _ => true
  | _ => false

/-- Is the event a call of `app.Listen`? -/
def Event.isListen : Event → Bool
  | .listen _ => true
  | _ => false

/-- Is the event a `log.Fatal` / `log.Fatalf`? -/
def Event.isFatal : Event → Bool
  | .fatal _ => true
  | _ => false

/-- Is the operation a `CountDocuments`? -/
def DbOp.isCount : DbOp → Bool
  | .countDocuments _ _ _ _ => true
  | _ => false

/-- Does the operation write (insert, update or delete)? -/
def DbOp.isWrite : DbOp → Bool
  | .countDocuments _ _ _ _ => false
  | _ => true

/-- A route path is static when it has no parameter, wildcard or optional
marker of Fiber's path syntax. -/
def isStaticPath (p : String) : Bool :=
  p.toList.all (fun ch => !(ch == ':' || ch == '*' || ch == '+' || ch == '?'))

/-! ## The database behind the driver

The program only ever sees the database through `World.countDocuments`.  To
speak about "the number of documents" and "the database contents" the server
side is given a state here. -/

/-- The state of the database server: whether it can be reached, and the
documents of each collection, keyed by database and collection name. -/
structure Mongo where
  reachable : Bool
  colls : List ((String × String) × List FiberMap)
  deriving DecidableEq, Repr

/-- The documents of a collection; a collection that was never written is empty. -/
def Mongo.docs (m : Mongo) (db coll : String) : List FiberMap :=
  (m.colls.lookup (db, coll)).getD []

/-- A document matches an equality filter when it has every entry of the
filter; the empty filter matches every document. -/
def matchesFilter (filter doc : FiberMap) : Bool :=
  filter.all (fun kv => doc.contains kv)

/-- What the driver's `CountDocuments` answers on this server: the number of
matching documents, or `0` with an error when the server cannot be reached. -/
def Mongo.countDocuments (m : Mongo) :
    Client → String → String → Context → FiberMap → CountResult :=
  fun _ db coll _ filter =>
    if m.reachable then
      ((((m.docs db coll).filter (matchesFilter filter)).length : Nat), none)
    else
      (0, some { msg := "server selection error: context deadline exceeded" })

/-- Replaces the documents of one collection. -/
def Mongo.setDocs (m : Mongo) (db coll : String) (ds : List FiberMap) : Mongo :=
  { m with colls := ((db, coll), ds) :: m.colls.filter (fun e => !(e.1 == (db, coll))) }

/-- Replaces the first document matching `filter` by `f` of it (`none` removes it). -/
def updateFirst (filter : FiberMap) (f : FiberMap → Option FiberMap) :
    List FiberMap → List FiberMap
  | [] => []
  | d :: ds =>
    if matchesFilter filter d then
      match f d with
      | some d2 => d2 :: ds
      | none => ds
    else d :: updateFirst filter f ds

/-- The effect of one operation on the server state: counting leaves it as it
is, the writes change the collection when the server is reachable. -/
def Mongo.apply (m : Mongo) : DbOp → Mongo
  | .countDocuments _ _ _ _ => m
  | .insertOne db coll doc =>
    if m.reachable then m.setDocs db coll (m.docs db coll ++ [doc]) else m
  | .updateOne db coll filter doc =>
    if m.reachable then
      m.setDocs db coll (updateFirst filter (fun _ => some doc) (m.docs db coll))
    else m
  | .deleteOne db coll filter =>
    if m.reachable then
      m.setDocs db coll (updateFirst filter (fun _ => none) (m.docs db coll))
    else m

/-- The effect of a sequence of operations, in order. -/
def Mongo.run (m : Mongo) (ops : List DbOp) : Mongo :=
  ops.foldl Mongo.apply m

/-- The world `w` with the driver's count answered by the server state `m`. -/
def World.onMongo (w : World) (m : Mongo) : World :=
  { w with countDocuments := m.countDocuments }

/-! ## Concrete worlds -/

/-- A world in which startup succeeds and the server keeps serving. -/
def okWorld : World :=
  { env := [("MONGO_URI", "mongodb://localhost:27017")]
    connect := fun _ _ => .ok { handle := 1 }
    ping := fun _ _ => none
    countDocuments := fun _ _ _ _ _ => (0, none)
    listen := fun _ => none }

/-- A world in which `MONGO_URI` is not set. -/
def unsetWorld : World := { okWorld with env := [("HOME", "/root")] }

/-- A world in which `MONGO_URI` is set to the empty string. -/
def emptyUriWorld : World := { okWorld with env := [("MONGO_URI", "")] }

/-- A world in which `mongo.Connect` returns an error. -/
def connectFailWorld : World :=
  { okWorld with connect := fun _ _ => .error { msg := "error parsing uri" } }

/-- A world in which `Connect` succeeds and `Ping` returns an error. -/
def pingFailWorld : World :=
  { okWorld with ping := fun _ _ => some { msg := "context deadline exceeded" } }

/-- A world in which `CountDocuments` returns `(0, err)`. -/
def countFailWorld : World :=
  { okWorld with countDocuments := fun _ _ _ _ _ => (0, some { msg := "connection refused" }) }

/-- A server holding two client documents that cannot be reached. -/
def downMongo : Mongo :=
  { reachable := false
    colls := [(("clientsdb", "clients"),
               [[("name", .str "acme")], [("name", .str "globex")]])] }

/-- The same two client documents on a reachable server. -/
def upMongo : Mongo := { downMongo with reachable := true }

/-- The globals after a successful startup in `okWorld`. -/
def connectedGlobals : Globals := { client := some { handle := 1 } }

/-- A request for the client count. -/
def clientsRequest : Request := { method := "GET", path := "/clients" }

/-! ## The four ways `connectMongo` can run -/

/-- With an empty `MONGO_URI` the run is the two-event fail-fast run. -/
theorem connectMongo_of_empty (w : World) (g : Globals)
    (h : getenv w.env "MONGO_URI" = "") :
    connectMongo w g =
      { outcome := .exited 1
        trace := [.getenv "MONGO_URI", .fatal "MONGO_URI not set"]
        globals := g } := by
  simp [connectMongo, h]

/-- With a failing `Connect` the run ends right after the `Connect` call. -/
theorem connectMongo_of_connect_error (w : World) (g : Globals) (err : DriverError)
    (h : getenv w.env "MONGO_URI" ≠ "")
    (hc : w.connect startupCtx (getenv w.env "MONGO_URI") = .error err) :
    connectMongo w g =
      { outcome := .exited 1
        trace := [.getenv "MONGO_URI", .withTimeout startupCtx,
                  .connect startupCtx (getenv w.env "MONGO_URI"),
                  .fatal ("Mongo connection error: " ++ err.msg)]
        globals := { g with client := none } } := by
  simp [connectMongo, h, hc]

/-- With a failing `Ping` the run ends right after the `Ping` call. -/
theorem connectMongo_of_ping_error (w : World) (g : Globals) (cl : Client)
    (err : DriverError) (h : getenv w.env "MONGO_URI" ≠ "")
    (hc : w.connect startupCtx (getenv w.env "MONGO_URI") = .ok cl)
    (hp : w.ping cl startupCtx = some err) :
    connectMongo w g =
      { outcome := .exited 1
        trace := [.getenv "MONGO_URI", .withTimeout startupCtx,
                  .connect startupCtx (getenv w.env "MONGO_URI"),
                  .ping cl startupCtx, .fatal ("Mongo ping failed: " ++ err.msg)]
        globals := { g with client := some cl } } := by
  simp [connectMongo, h, hc, hp]

/-- With a URI, a successful `Connect` and a successful `Ping` the run returns. -/
theorem connectMongo_of_ok (w : World) (g : Globals) (cl : Client)
    (h : getenv w.env "MONGO_URI" ≠ "")
    (hc : w.connect startupCtx (getenv w.env "MONGO_URI") = .ok cl)
    (hp : w.ping cl startupCtx = none) :
    connectMongo w g =
      { outcome := .returned
        trace := [.getenv "MONGO_URI", .withTimeout startupCtx,
                  .connect startupCtx (getenv w.env "MONGO_URI"),
                  .ping cl startupCtx, .println "✅ Connected to MongoDB",
                  .cancel startupCtx]
        globals := { g with client := some cl } } := by
  simp [connectMongo, h, hc, hp]

/-- Every world falls in exactly one of the four situations above. -/
theorem world_cases (w : World) :
    getenv w.env "MONGO_URI" = "" ∨
    (getenv w.env "MONGO_URI" ≠ "" ∧
      ∃ err, w.connect startupCtx (getenv w.env "MONGO_URI") = .error err) ∨
    (getenv w.env "MONGO_URI" ≠ "" ∧
      ∃ cl err, w.connect startupCtx (getenv w.env "MONGO_URI") = .ok cl ∧
        w.ping cl startupCtx = some err) ∨
    (getenv w.env "MONGO_URI" ≠ "" ∧
      ∃ cl, w.connect startupCtx (getenv w.env "MONGO_URI") = .ok cl ∧
        w.ping cl startupCtx = none) := by
  by_cases h : getenv w.env "MONGO_URI" = ""
  · exact Or.inl h
  · right
    cases hc : w.connect startupCtx (getenv w.env "MONGO_URI") with
    | error err => exact Or.inl ⟨h, err, rfl⟩
    | ok cl =>
      right
      cases hp : w.ping cl startupCtx with
      | none => exact Or.inr ⟨h, cl, rfl, hp⟩
      | some err => exact Or.inl ⟨h, cl, err, rfl, hp⟩

/-- The variable being unset or empty is what makes `os.Getenv` give `""`. -/
theorem getenv_eq_empty_iff (env : List (String × String)) (key : String) :
    getenv env key = "" ↔ env.lookup key = none ∨ env.lookup key = some "" := by
  unfold getenv
  cases h : env.lookup key with
  | none => simp
  | some v => simp

/-! ## Startup: C1, C2, C8, C9 -/

/-- C1. Whenever `MONGO_URI` is unset or set to the empty string, `connectMongo`
ends the process through `log.Fatal` with the message "MONGO_URI not set" and
exit status 1, neither `Connect` nor `Ping` is ever called, and the global
`client` is left exactly as it was. -/
theorem connectMongo_fails_fast_on_missing_uri (w : World) (g : Globals)
    (h : w.env.lookup "MONGO_URI" = none ∨ w.env.lookup "MONGO_URI" = some "") :
    (connectMongo w g).outcome = .exited 1 ∧
    (connectMongo w g).trace.getLast? = some (.fatal "MONGO_URI not set") ∧
    (∀ e ∈ (connectMongo w g).trace, e.isConnect = false ∧ e.isPing = false) ∧
    (connectMongo w g).globals = g := by
  have he : getenv w.env "MONGO_URI" = "" := (getenv_eq_empty_iff _ _).2 h
  rw [connectMongo_of_empty w g he]
  refine ⟨rfl, rfl, ?_, rfl⟩
  intro e hmem
  simp only [List.mem_cons, List.mem_singleton, List.not_mem_nil, or_false] at hmem
  rcases hmem with rfl | rfl <;> exact ⟨rfl, rfl⟩

/-- Witness of C1 in a world where the variable is unset, started from the nil
client: the process exits and the client is still nil. -/
theorem connectMongo_fails_fast_on_missing_uri_witness :
    (unsetWorld.env.lookup "MONGO_URI" = none ∨
      unsetWorld.env.lookup "MONGO_URI" = some "") ∧
    (connectMongo unsetWorld { client := none }).outcome = .exited 1 ∧
    (connectMongo unsetWorld { client := none }).globals = { client := none } :=
  ⟨Or.inl (by decide),
   (connectMongo_fails_fast_on_missing_uri unsetWorld { client := none }
      (Or.inl (by decide))).1,
   (connectMongo_fails_fast_on_missing_uri unsetWorld { client := none }
      (Or.inl (by decide))).2.2.2⟩

/-- C2. `connectMongo` returns exactly when `MONGO_URI` is non-empty, `Connect`
gives no error and the following `Ping` gives no error.  In every other case the
process exits with status 1 through a fatal log; on a `Connect` error no `Ping`
is ever called, and on a `Ping` error the fatal log comes after the successful
`Connect` and the `Ping`. -/
theorem connectMongo_returns_iff (w : World) (g : Globals) :
    ((connectMongo w g).outcome = .returned ↔
      getenv w.env "MONGO_URI" ≠ "" ∧
      ∃ cl, w.connect startupCtx (getenv w.env "MONGO_URI") = .ok cl ∧
        w.ping cl startupCtx = none) ∧
    ((connectMongo w g).outcome ≠ .returned →
      (connectMongo w g).outcome = .exited 1 ∧
      ∃ msg, (connectMongo w g).trace.getLast? = some (.fatal msg)) ∧
    (∀ err, getenv w.env "MONGO_URI" ≠ "" →
      w.connect startupCtx (getenv w.env "MONGO_URI") = .error err →
      (connectMongo w g).outcome = .exited 1 ∧
      (∀ e ∈ (connectMongo w g).trace, e.isPing = false) ∧
      (connectMongo w g).trace.getLast? =
        some (.fatal ("Mongo connection error: " ++ err.msg))) ∧
    (∀ cl err, getenv w.env "MONGO_URI" ≠ "" →
      w.connect startupCtx (getenv w.env "MONGO_URI") = .ok cl →
      w.ping cl startupCtx = some err →
      (connectMongo w g).outcome = .exited 1 ∧
      ∃ pre, (connectMongo w g).trace =
        pre ++ [.connect startupCtx (getenv w.env "MONGO_URI"), .ping cl startupCtx,
                .fatal ("Mongo ping failed: " ++ err.msg)]) := by
  refine ⟨?_, ?_, ?_, ?_⟩
  · rcases world_cases w with h | ⟨h, err, hc⟩ | ⟨h, cl, err, hc, hp⟩ | ⟨h, cl, hc, hp⟩
    · rw [connectMongo_of_empty w g h]
      simp [h]
    · rw [connectMongo_of_connect_error w g err h hc]
      simp [hc]
    · rw [connectMongo_of_ping_error w g cl err h hc hp]
      simp [hc, hp]
    · rw [connectMongo_of_ok w g cl h hc hp]
      simp [h, hc, hp]
  · rcases world_cases w with h | ⟨h, err, hc⟩ | ⟨h, cl, err, hc, hp⟩ | ⟨h, cl, hc, hp⟩
    · rw [connectMongo_of_empty w g h]
      intro _
      exact ⟨rfl, _, rfl⟩
    · rw [connectMongo_of_connect_error w g err h hc]
      intro _
      exact ⟨rfl, _, rfl⟩
    · rw [connectMongo_of_ping_error w g cl err h hc hp]
      intro _
      exact ⟨rfl, _, rfl⟩
    · rw [connectMongo_of_ok w g cl h hc hp]
      intro hne
      exact absurd rfl hne
  · intro err h hc
    rw [connectMongo_of_connect_error w g err h hc]
    refine ⟨rfl, ?_, rfl⟩
    intro e hmem
    simp only [List.mem_cons, List.mem_singleton, List.not_mem_nil, or_false] at hmem
    rcases hmem with rfl | rfl | rfl | rfl <;> rfl
  · intro cl err h hc hp
    rw [connectMongo_of_ping_error w g cl err h hc hp]
    exact ⟨rfl, [.getenv "MONGO_URI", .withTimeout startupCtx], rfl⟩

/-- Witness of C2: in `okWorld` the three conditions hold and `connectMongo`
returns; in `pingFailWorld` it does not return and the process exits. -/
theorem connectMongo_returns_iff_witness :
    (connectMongo okWorld { client := none }).outcome = .returned ∧
    (connectMongo pingFailWorld { client := none }).outcome = .exited 1 :=
  ⟨(connectMongo_returns_iff okWorld { client := none }).1.2
      ⟨by decide, { handle := 1 }, rfl, rfl⟩,
   ((connectMongo_returns_iff pingFailWorld { client := none }).2.1 (by decide)).1⟩

/-- C8. `connectMongo` never retries: every run calls `Connect` at most once and
`Ping` at most once; when `Connect` fails the very next event is the fatal log
(one `Connect`, no `Ping`), and when `Ping` fails the very next event is the
fatal log (one `Connect`, one `Ping`); in both cases the process exits. -/
theorem connectMongo_no_retry (w : World) (g : Globals) :
    (connectMongo w g).trace.countP Event.isConnect ≤ 1 ∧
    (connectMongo w g).trace.countP Event.isPing ≤ 1 ∧
    (∀ err, getenv w.env "MONGO_URI" ≠ "" →
      w.connect startupCtx (getenv w.env "MONGO_URI") = .error err →
      (connectMongo w g).outcome = .exited 1 ∧
      (connectMongo w g).trace.countP Event.isConnect = 1 ∧
      (connectMongo w g).trace.countP Event.isPing = 0 ∧
      ∃ pre msg, (connectMongo w g).trace =
        pre ++ [.connect startupCtx (getenv w.env "MONGO_URI"), .fatal msg]) ∧
    (∀ cl err, getenv w.env "MONGO_URI" ≠ "" →
      w.connect startupCtx (getenv w.env "MONGO_URI") = .ok cl →
      w.ping cl startupCtx = some err →
      (connectMongo w g).outcome = .exited 1 ∧
      (connectMongo w g).trace.countP Event.isConnect = 1 ∧
      (connectMongo w g).trace.countP Event.isPing = 1 ∧
      ∃ pre msg, (connectMongo w g).trace = pre ++ [.ping cl startupCtx, .fatal msg]) := by
  refine ⟨?_, ?_, ?_, ?_⟩
  · rcases world_cases w with h | ⟨h, err, hc⟩ | ⟨h, cl, err, hc, hp⟩ | ⟨h, cl, hc, hp⟩
    · rw [connectMongo_of_empty w g h]
      simp [List.countP_cons, Event.isConnect]
    · rw [connectMongo_of_connect_error w g err h hc]
      simp [List.countP_cons, Event.isConnect]
    · rw [connectMongo_of_ping_error w g cl err h hc hp]
      simp [List.countP_cons, Event.isConnect]
    · rw [connectMongo_of_ok w g cl h hc hp]
      simp [List.countP_cons, Event.isConnect]
  · rcases world_cases w with h | ⟨h, err, hc⟩ | ⟨h, cl, err, hc, hp⟩ | ⟨h, cl, hc, hp⟩
    · rw [connectMongo_of_empty w g h]
      simp [List.countP_cons, Event.isPing]
    · rw [connectMongo_of_connect_error w g err h hc]
      simp [List.countP_cons, Event.isPing]
    · rw [connectMongo_of_ping_error w g cl err h hc hp]
      simp [List.countP_cons, Event.isPing]
    · rw [connectMongo_of_ok w g cl h hc hp]
      simp [List.countP_cons, Event.isPing]
  · intro err h hc
    rw [connectMongo_of_connect_error w g err h hc]
    refine ⟨rfl, ?_, ?_, [.getenv "MONGO_URI", .withTimeout startupCtx], _, rfl⟩
    · simp [List.countP_cons, Event.isConnect]
    · simp [List.countP_cons, Event.isPing]
  · intro cl err h hc hp
    rw [connectMongo_of_ping_error w g cl err h hc hp]
    refine ⟨rfl, ?_, ?_,
      [.getenv "MONGO_URI", .withTimeout startupCtx,
       .connect startupCtx (getenv w.env "MONGO_URI")], _, rfl⟩
    · simp [List.countP_cons, Event.isConnect]
    · simp [List.countP_cons, Event.isPing]

/-- Witness of C8: with a failing `Connect` the process exits after one
`Connect` and no `Ping`; with a failing `Ping`, after one of each. -/
theorem connectMongo_no_retry_witness :
    ((connectMongo connectFailWorld { client := none }).outcome = .exited 1 ∧
      (connectMongo connectFailWorld { client := none }).trace.countP Event.isConnect = 1) ∧
    ((connectMongo pingFailWorld { client := none }).outcome = .exited 1 ∧
      (connectMongo pingFailWorld { client := none }).trace.countP Event.isPing = 1) :=
  ⟨⟨((connectMongo_no_retry connectFailWorld { client := none }).2.2.1
        { msg := "error parsing uri" } (by decide) rfl).1,
    ((connectMongo_no_retry connectFailWorld { client := none }).2.2.1
        { msg := "error parsing uri" } (by decide) rfl).2.1⟩,
   ⟨((connectMongo_no_retry pingFailWorld { client := none }).2.2.2
        { handle := 1 } { msg := "context deadline exceeded" } (by decide) rfl rfl).1,
    ((connectMongo_no_retry pingFailWorld { client := none }).2.2.2
        { handle := 1 } { msg := "context deadline exceeded" } (by decide) rfl rfl).2.2.1⟩⟩

/-- C9. The startup context is `context.Background()` with a timeout of ten
times `time.Second`, that is 10 000 000 000 ns.  Every run creates at most one
timeout context and it is that one; every `Connect` and every `Ping` of the run
receives that context, and exactly one context was created when they are
called.  The calls are really made: whenever `MONGO_URI` is non-empty the run
creates the context and then calls `Connect` with it, whenever `Connect`
succeeds the run goes on to call `Ping` on the new client with the same
context, and a run that returns is exactly: read the variable, create the
context, `Connect` with it, `Ping` with it, log, cancel it. -/
theorem connectMongo_single_timeout_budget (w : World) (g : Globals) :
    startupCtx = .withTimeout .background 10000000000 ∧
    (connectMongo w g).trace.countP Event.isWithTimeout ≤ 1 ∧
    (∀ ctx, Event.withTimeout ctx ∈ (connectMongo w g).trace → ctx = startupCtx) ∧
    (∀ ctx uri, Event.connect ctx uri ∈ (connectMongo w g).trace →
      ctx = startupCtx ∧ (connectMongo w g).trace.countP Event.isWithTimeout = 1) ∧
    (∀ cl ctx, Event.ping cl ctx ∈ (connectMongo w g).trace →
      ctx = startupCtx ∧ (connectMongo w g).trace.countP Event.isWithTimeout = 1) ∧
    ((connectMongo w g).outcome = .returned →
      (connectMongo w g).trace.getLast? = some (.cancel startupCtx)) ∧
    (getenv w.env "MONGO_URI" ≠ "" →
      (connectMongo w g).trace.countP Event.isWithTimeout = 1 ∧
      (connectMongo w g).trace.countP Event.isConnect = 1 ∧
      ∃ post, (connectMongo w g).trace =
        [.getenv "MONGO_URI", .withTimeout startupCtx,
         .connect startupCtx (getenv w.env "MONGO_URI")] ++ post) ∧
    (∀ cl, getenv w.env "MONGO_URI" ≠ "" →
      w.connect startupCtx (getenv w.env "MONGO_URI") = .ok cl →
      (connectMongo w g).trace.countP Event.isPing = 1 ∧
      ∃ post, (connectMongo w g).trace =
        [.getenv "MONGO_URI", .withTimeout startupCtx,
         .connect startupCtx (getenv w.env "MONGO_URI"), .ping cl startupCtx] ++ post) ∧
    ((connectMongo w g).outcome = .returned →
      ∃ cl, (connectMongo w g).trace =
        [.getenv "MONGO_URI", .withTimeout startupCtx,
         .connect startupCtx (getenv w.env "MONGO_URI"), .ping cl startupCtx,
         .println "✅ Connected to MongoDB", .cancel startupCtx]) := by
  refine ⟨by decide, ?_⟩
  rcases world_cases w with h | ⟨h, err, hc⟩ | ⟨h, cl, err, hc, hp⟩ | ⟨h, cl, hc, hp⟩
  · rw [connectMongo_of_empty w g h]
    simp [List.countP_cons, Event.isWithTimeout, h]
  · rw [connectMongo_of_connect_error w g err h hc]
    simp [List.countP_cons, Event.isWithTimeout, Event.isConnect, hc]
  · rw [connectMongo_of_ping_error w g cl err h hc hp]
    simp [List.countP_cons, Event.isWithTimeout, Event.isConnect, Event.isPing, hc]
  · rw [connectMongo_of_ok w g cl h hc hp]
    simp [List.countP_cons, Event.isWithTimeout, Event.isConnect, Event.isPing, hc]

/-- Witness of C9 in `okWorld`: the run creates one context of 10 s, calls
`Connect` and then `Ping` with it, and ends by cancelling it. -/
theorem connectMongo_single_timeout_budget_witness :
    ((connectMongo okWorld { client := none }).trace.countP Event.isWithTimeout = 1) ∧
    (connectMongo okWorld { client := none }).trace.getLast? =
      some (.cancel (.withTimeout .background 10000000000)) ∧
    ((connectMongo okWorld { client := none }).trace.countP Event.isPing = 1 ∧
      ∃ post, (connectMongo okWorld { client := none }).trace =
        [.getenv "MONGO_URI", .withTimeout startupCtx,
         .connect startupCtx (getenv okWorld.env "MONGO_URI"),
         .ping { handle := 1 } startupCtx] ++ post) :=
  ⟨((connectMongo_single_timeout_budget okWorld { client := none }).2.2.2.2.1
      { handle := 1 } startupCtx (by decide)).2,
   (connectMongo_single_timeout_budget okWorld { client := none }).2.2.2.2.2.1 (by decide),
   (connectMongo_single_timeout_budget okWorld { client := none }).2.2.2.2.2.2.2.1
      { handle := 1 } (by decide) rfl⟩

/-! ## `main`: C3, C7 -/

/-- A run of `connectMongo` that returned is the successful run. -/
theorem connectMongo_returned_inv (w : World) (g : Globals)
    (hr : (connectMongo w g).outcome = .returned) :
    getenv w.env "MONGO_URI" ≠ "" ∧
    ∃ cl, w.connect startupCtx (getenv w.env "MONGO_URI") = .ok cl ∧
      w.ping cl startupCtx = none := by
  rcases world_cases w with h | ⟨h, err, hc⟩ | ⟨h, cl, err, hc, hp⟩ | ⟨h, cl, hc, hp⟩
  · rw [connectMongo_of_empty w g h] at hr
    exact Outcome.noConfusion hr
  · rw [connectMongo_of_connect_error w g err h hc] at hr
    exact Outcome.noConfusion hr
  · rw [connectMongo_of_ping_error w g cl err h hc hp] at hr
    exact Outcome.noConfusion hr
  · exact ⟨h, cl, hc, hp⟩

/-- A run of `connectMongo` that did not return exited with status 1. -/
theorem connectMongo_exited_of_not_returned (w : World) (g : Globals)
    (hr : (connectMongo w g).outcome ≠ .returned) :
    (connectMongo w g).outcome = .exited 1 := by
  rcases world_cases w with h | ⟨h, err, hc⟩ | ⟨h, cl, err, hc, hp⟩ | ⟨h, cl, hc, hp⟩
  · rw [connectMongo_of_empty w g h]
  · rw [connectMongo_of_connect_error w g err h hc]
  · rw [connectMongo_of_ping_error w g cl err h hc hp]
  · rw [connectMongo_of_ok w g cl h hc hp] at hr
    exact absurd rfl hr

/-- No run of `connectMongo` registers a route or listens. -/
theorem connectMongo_trace_no_serving (w : World) (g : Globals) :
    ∀ e ∈ (connectMongo w g).trace, e.isGet = false ∧ e.isListen = false := by
  rcases world_cases w with h | ⟨h, err, hc⟩ | ⟨h, cl, err, hc, hp⟩ | ⟨h, cl, hc, hp⟩
  · rw [connectMongo_of_empty w g h]
    simp [Event.isGet, Event.isListen]
  · rw [connectMongo_of_connect_error w g err h hc]
    simp [Event.isGet, Event.isListen]
  · rw [connectMongo_of_ping_error w g cl err h hc hp]
    simp [Event.isGet, Event.isListen]
  · rw [connectMongo_of_ok w g cl h hc hp]
    simp [Event.isGet, Event.isListen]

/-- When `connectMongo` exits, `main` ends there: nothing is added to the trace
and the app has no route. -/
theorem main_of_exited (w : World) (code : Nat)
    (hr : (connectMongo w { client := none }).outcome = .exited code) :
    (main w).outcome = .exited code ∧
    (main w).trace = .fiberNew :: (connectMongo w { client := none }).trace ∧
    (main w).globals = (connectMongo w { client := none }).globals ∧
    (main w).app.routes = [] := by
  simp [main, hr, fiberNew]

/-- When `connectMongo` returns, `main` registers the two handlers, each for HEAD
and GET, and listens. -/
theorem main_of_returned (w : World)
    (hr : (connectMongo w { client := none }).outcome = .returned) :
    (main w).app.routes =
      [{ method := "HEAD", path := "/health", handler := healthHandler },
       { method := "GET", path := "/health", handler := healthHandler },
       { method := "HEAD", path := "/clients", handler := clientsHandler },
       { method := "GET", path := "/clients", handler := clientsHandler }] ∧
    (main w).globals = (connectMongo w { client := none }).globals ∧
    ∃ rest, (∀ e ∈ rest, e.isFatal = true) ∧
      (main w).trace = .fiberNew :: (connectMongo w { client := none }).trace ++
        [.get "/health", .get "/clients", .listen ":8080"] ++ rest := by
  cases hl : w.listen ":8080" with
  | none =>
    refine ⟨?_, ?_, [], ?_, ?_⟩ <;>
      simp [main, hr, hl, fiberNew, App.Get, App.Head, App.Add]
  | some msg =>
    refine ⟨?_, ?_, [.fatal msg], ?_, ?_⟩ <;>
      simp [main, hr, hl, fiberNew, App.Get, App.Head, App.Add, Event.isFatal]

/-- The route table of `main` is empty or the table of the two `app.Get` calls. -/
theorem main_routes_cases (w : World) :
    (main w).app.routes = [] ∨
    (main w).app.routes =
      [{ method := "HEAD", path := "/health", handler := healthHandler },
       { method := "GET", path := "/health", handler := healthHandler },
       { method := "HEAD", path := "/clients", handler := clientsHandler },
       { method := "GET", path := "/clients", handler := clientsHandler }] := by
  by_cases hr : (connectMongo w { client := none }).outcome = .returned
  · exact Or.inr (main_of_returned w hr).1
  · exact Or.inl (main_of_exited w 1 (connectMongo_exited_of_not_returned w _ hr)).2.2.2

/-- C3. In `main`, everything `connectMongo` does comes before any route
registration and before `Listen`: the trace of `main` is `fiber.New`, then the
whole trace of `connectMongo`, then the rest, and no event up to there is a
registration or a `Listen`.  When `connectMongo` ends the process, `main` ends
with it: the process exits with status 1, no route was registered and `Listen`
was never called.  So a `Listen` in the trace means that `MONGO_URI` was set,
`Connect` succeeded and `Ping` succeeded. -/
theorem main_listens_only_after_connect (w : World) :
    (∃ rest, (main w).trace =
      .fiberNew :: (connectMongo w { client := none }).trace ++ rest) ∧
    (∀ e ∈ Event.fiberNew :: (connectMongo w { client := none }).trace,
      e.isGet = false ∧ e.isListen = false) ∧
    ((connectMongo w { client := none }).outcome ≠ .returned →
      (main w).outcome = .exited 1 ∧ (main w).app.routes = [] ∧
      ∀ e ∈ (main w).trace, e.isGet = false ∧ e.isListen = false) ∧
    ((∃ e ∈ (main w).trace, e.isGet = true ∨ e.isListen = true) →
      getenv w.env "MONGO_URI" ≠ "" ∧
      ∃ cl, w.connect startupCtx (getenv w.env "MONGO_URI") = .ok cl ∧
        w.ping cl startupCtx = none) := by
  have hpre : ∀ e ∈ Event.fiberNew :: (connectMongo w { client := none }).trace,
      e.isGet = false ∧ e.isListen = false := by
    intro e he
    rcases List.mem_cons.1 he with rfl | he
    · exact ⟨rfl, rfl⟩
    · exact connectMongo_trace_no_serving w _ e he
  have hfatal : (connectMongo w { client := none }).outcome ≠ .returned →
      (main w).outcome = .exited 1 ∧ (main w).app.routes = [] ∧
      ∀ e ∈ (main w).trace, e.isGet = false ∧ e.isListen = false := by
    intro hr
    have hm := main_of_exited w 1 (connectMongo_exited_of_not_returned w _ hr)
    refine ⟨hm.1, hm.2.2.2, ?_⟩
    rw [hm.2.1]
    exact hpre
  refine ⟨?_, hpre, hfatal, ?_⟩
  · by_cases hr : (connectMongo w { client := none }).outcome = .returned
    · obtain ⟨_, _, rest, _, ht⟩ := main_of_returned w hr
      exact ⟨[.get "/health", .get "/clients", .listen ":8080"] ++ rest, by
        rw [ht]; simp⟩
    · exact ⟨[], by
        rw [(main_of_exited w 1 (connectMongo_exited_of_not_returned w _ hr)).2.1]; simp⟩
  · rintro ⟨e, he, hserve⟩
    by_cases hr : (connectMongo w { client := none }).outcome = .returned
    · exact connectMongo_returned_inv w _ hr
    · have hno := (hfatal hr).2.2 e he
      rcases hserve with h1 | h1
      · rw [hno.1] at h1
        exact absurd h1 (by decide)
      · rw [hno.2] at h1
        exact absurd h1 (by decide)

/-- Witness of C3: when the variable is unset `main` exits with no route and no
`Listen`; in `okWorld` the trace has a `Listen`, and there `Connect` did succeed. -/
theorem main_listens_only_after_connect_witness :
    ((main unsetWorld).outcome = .exited 1 ∧ (main unsetWorld).app.routes = []) ∧
    (∃ cl, okWorld.connect startupCtx (getenv okWorld.env "MONGO_URI") = .ok cl ∧
      okWorld.ping cl startupCtx = none) :=
  ⟨⟨((main_listens_only_after_connect unsetWorld).2.2.1 (by decide)).1,
    ((main_listens_only_after_connect unsetWorld).2.2.1 (by decide)).2.1⟩,
   ((main_listens_only_after_connect okWorld).2.2.2
      ⟨.listen ":8080", by decide, Or.inr rfl⟩).2⟩

/-- C7, counterexample. In `okWorld`, where startup succeeds, the route table
`main` builds has four routes, not two: each `app.Get` call of Fiber v2 also
registers the handler for method HEAD, so the table has a route whose method is
not GET. -/
theorem main_route_table_not_only_get :
    (main okWorld).app.routes.map (fun r => (r.method, r.path)) =
      [("HEAD", "/health"), ("GET", "/health"), ("HEAD", "/clients"), ("GET", "/clients")] ∧
    (main okWorld).app.routes.length = 4 ∧
    (main okWorld).app.routes.map (fun r => (r.method, r.path)) ≠
      [("GET", "/health"), ("GET", "/clients")] ∧
    ((main okWorld).app.routes.map (fun r => r.method)).all (fun x => x == "GET") = false := by
  decide

/-- C7, amended. When startup succeeds, `main` makes exactly two registration
calls, `app.Get("/health", ...)` and `app.Get("/clients", ...)`, followed by
`Listen(":8080")`, and these are the only registrations and the only `Listen`
in the trace.  The route table they build has exactly four routes, HEAD and GET
for `/health` served by the health handler and HEAD and GET for `/clients`
served by the clients handler; every route has method GET or HEAD and one of
these two paths, and both paths are static. -/
theorem main_route_table (w : World)
    (hr : (connectMongo w { client := none }).outcome = .returned) :
    (main w).trace.filter (fun e => e.isGet || e.isListen) =
      [.get "/health", .get "/clients", .listen ":8080"] ∧
    (main w).app.routes.map (fun r => (r.method, r.path)) =
      [("HEAD", "/health"), ("GET", "/health"), ("HEAD", "/clients"), ("GET", "/clients")] ∧
    (main w).app.routes.map (fun r => r.handler) =
      [healthHandler, healthHandler, clientsHandler, clientsHandler] ∧
    (∀ r ∈ (main w).app.routes,
      (r.method = "GET" ∨ r.method = "HEAD") ∧
      (r.path = "/health" ∨ r.path = "/clients") ∧
      isStaticPath r.path = true) ∧
    ((main w).app.routes.filter (fun r => r.method == "GET")).map
        (fun r => (r.method, r.path)) =
      [("GET", "/health"), ("GET", "/clients")] := by
  obtain ⟨hroutes, _, rest, hrest, ht⟩ := main_of_returned w hr
  refine ⟨?_, by rw [hroutes]; rfl, by rw [hroutes]; rfl, ?_, by rw [hroutes]; decide⟩
  · have h1 : ((connectMongo w { client := none }).trace.filter
        (fun e => e.isGet || e.isListen)) = [] := by
      rw [List.filter_eq_nil_iff]
      intro e he
      have := connectMongo_trace_no_serving w _ e he
      simp [this.1, this.2]
    have h2 : rest.filter (fun e => e.isGet || e.isListen) = [] := by
      rw [List.filter_eq_nil_iff]
      intro e he
      have hf := hrest e he
      cases e <;> simp_all [Event.isFatal, Event.isGet, Event.isListen]
    rw [ht]
    simp only [List.filter_cons, List.filter_append, h1, h2]
    simp [Event.isGet, Event.isListen]
  · rw [hroutes]
    intro r hmem
    simp only [List.mem_cons, List.mem_singleton, List.not_mem_nil, or_false] at hmem
    rcases hmem with rfl | rfl | rfl | rfl <;> decide

/-- Witness of C7 amended in `okWorld`: two `app.Get` calls and one `Listen`,
and a table of four routes. -/
theorem main_route_table_witness :
    (connectMongo okWorld { client := none }).outcome = .returned ∧
    (main okWorld).trace.filter (fun e => e.isGet || e.isListen) =
      [.get "/health", .get "/clients", .listen ":8080"] ∧
    (main okWorld).app.routes.map (fun r => (r.method, r.path)) =
      [("HEAD", "/health"), ("GET", "/health"), ("HEAD", "/clients"), ("GET", "/clients")] :=
  ⟨by decide, (main_route_table okWorld (by decide)).1,
   (main_route_table okWorld (by decide)).2.1⟩

/-! ## The handlers: C4, C5, C6, C10 -/

/-- What the `/clients` handler does once the global client is assigned. -/
theorem clientsHandler_of_client (w : World) (g : Globals) (cl : Client) (c : Ctx)
    (hc : g.client = some cl) :
    clientsHandler w g c =
      { outcome := .returned none
        ctx := c.JSON [("clients_count",
                .int (w.countDocuments cl "clientsdb" "clients" .background []).1)]
        ops := [.countDocuments "clientsdb" "clients" .background []]
        globals := g } := by
  simp [clientsHandler, hc]

/-- The empty filter matches every document. -/
theorem filter_matchesFilter_nil (ds : List FiberMap) :
    ds.filter (matchesFilter []) = ds := by
  simp [matchesFilter]

/-- C4. The `/health` handler, whatever the request, the globals and the world
(so whatever `CountDocuments` would answer, a failing database included),
returns a nil error with status 200 and the JSON body `"status": "healthy"`,
and issues no database operation.  It is the handler of every route `main`
registers on `/health`, and whenever startup succeeds the table of `main` does
hold the route GET `/health` with this handler. -/
theorem health_handler_always_healthy (w : World) (g : Globals) (c : Ctx) :
    (healthHandler w g c).outcome = .returned none ∧
    (healthHandler w g c).ctx.resp.status = 200 ∧
    (healthHandler w g c).ctx.resp.contentType = "application/json" ∧
    (healthHandler w g c).ctx.resp.json = some [("status", .str "healthy")] ∧
    (healthHandler w g c).ops = [] ∧
    (∀ w0, ∀ r ∈ (main w0).app.routes, r.path = "/health" →
      r.handler = healthHandler) ∧
    (∀ w0, (connectMongo w0 { client := none }).outcome = .returned →
      ∃ r ∈ (main w0).app.routes,
        r.method = "GET" ∧ r.path = "/health" ∧ r.handler = healthHandler) := by
  refine ⟨rfl, rfl, rfl, rfl, rfl, ?_, ?_⟩
  · intro w0 r hmem hpath
    rcases main_routes_cases w0 with h | h
    · rw [h] at hmem
      exact absurd hmem (List.not_mem_nil _)
    · rw [h] at hmem
      simp only [List.mem_cons, List.mem_singleton, List.not_mem_nil, or_false] at hmem
      rcases hmem with rfl | rfl | rfl | rfl
      · rfl
      · rfl
      · exact absurd hpath (by decide)
      · exact absurd hpath (by decide)
  · intro w0 hr
    refine ⟨{ method := "GET", path := "/health", handler := healthHandler }, ?_,
      rfl, rfl, rfl⟩
    rw [(main_of_returned w0 hr).1]
    simp

/-- Witness of C4: on an unreachable database the handler still answers 200 with
the healthy body and no database operation, and the table of `main` in `okWorld`
holds GET `/health` with this handler. -/
theorem health_handler_always_healthy_witness :
    ((healthHandler (okWorld.onMongo downMongo) connectedGlobals
        (acquireCtx { method := "GET", path := "/health" })).ctx.resp.status = 200 ∧
      (healthHandler (okWorld.onMongo downMongo) connectedGlobals
        (acquireCtx { method := "GET", path := "/health" })).ctx.resp.json =
          some [("status", .str "healthy")] ∧
      (healthHandler (okWorld.onMongo downMongo) connectedGlobals
        (acquireCtx { method := "GET", path := "/health" })).ops = []) ∧
    (∃ r ∈ (main okWorld).app.routes,
      r.method = "GET" ∧ r.path = "/health" ∧ r.handler = healthHandler) :=
  ⟨⟨(health_handler_always_healthy (okWorld.onMongo downMongo) connectedGlobals
      (acquireCtx { method := "GET", path := "/health" })).2.1,
    (health_handler_always_healthy (okWorld.onMongo downMongo) connectedGlobals
      (acquireCtx { method := "GET", path := "/health" })).2.2.2.1,
    (health_handler_always_healthy (okWorld.onMongo downMongo) connectedGlobals
      (acquireCtx { method := "GET", path := "/health" })).2.2.2.2.1⟩,
   (health_handler_always_healthy okWorld connectedGlobals
      (acquireCtx { method := "GET", path := "/health" })).2.2.2.2.2.2 okWorld (by decide)⟩

/-- C5, counterexample. On a server that holds two client documents and cannot
be reached, the `/clients` handler answers `"clients_count": 0`, which is not
the number of documents in the collection. -/
theorem clients_count_wrong_when_unreachable :
    (clientsHandler (okWorld.onMongo downMongo) connectedGlobals
        (acquireCtx clientsRequest)).ctx.resp.json =
      some [("clients_count", .int 0)] ∧
    (downMongo.docs "clientsdb" "clients").length = 2 ∧
    (clientsHandler (okWorld.onMongo downMongo) connectedGlobals
        (acquireCtx clientsRequest)).ctx.resp.json ≠
      some [("clients_count",
        .int ((downMongo.docs "clientsdb" "clients").length : Nat))] := by
  decide

/-- C5, amended. Once the global client is assigned, for every server state the
`/clients` handler answers a JSON object with the single key `clients_count`,
whose value is the count that `CountDocuments` returned for the empty filter on
collection `clients` of database `clientsdb`; whenever the server is reachable
(the count succeeds) that value is the number of documents in the collection. -/
theorem clients_count_when_count_succeeds (w : World) (m : Mongo) (g : Globals)
    (cl : Client) (req : Request) (hc : g.client = some cl) :
    (clientsHandler (w.onMongo m) g (acquireCtx req)).ctx.resp.json =
      some [("clients_count",
        .int (m.countDocuments cl "clientsdb" "clients" .background []).1)] ∧
    (clientsHandler (w.onMongo m) g (acquireCtx req)).ops =
      [.countDocuments "clientsdb" "clients" .background []] ∧
    (m.reachable = true →
      (m.countDocuments cl "clientsdb" "clients" .background []).2 = none ∧
      (clientsHandler (w.onMongo m) g (acquireCtx req)).ctx.resp.json =
        some [("clients_count",
          .int ((m.docs "clientsdb" "clients").length : Nat))]) := by
  rw [clientsHandler_of_client (w.onMongo m) g cl _ hc]
  refine ⟨rfl, rfl, ?_⟩
  intro hreach
  simp [World.onMongo, Mongo.countDocuments, hreach, filter_matchesFilter_nil, Ctx.JSON]

/-- Witness of C5 amended: on the reachable server with two client documents
the handler answers `"clients_count": 2`. -/
theorem clients_count_when_count_succeeds_witness :
    connectedGlobals.client = some { handle := 1 } ∧
    upMongo.reachable = true ∧
    (clientsHandler (okWorld.onMongo upMongo) connectedGlobals
        (acquireCtx clientsRequest)).ctx.resp.json =
      some [("clients_count", .int ((upMongo.docs "clientsdb" "clients").length : Nat))] :=
  ⟨rfl, rfl,
   ((clients_count_when_count_succeeds okWorld upMongo connectedGlobals { handle := 1 }
      clientsRequest rfl).2.2 rfl).2⟩

/-- C6. Every handler in the route table of `main`, for every world, globals,
request context and server state: each operation it issues is a
`CountDocuments` and none is a write, running its operations leaves the server
state as it was, and it leaves the globals (the client) as they were.  And
`main` itself leaves the globals as `connectMongo` left them. -/
theorem handlers_are_read_only (w0 : World) :
    (∀ r ∈ (main w0).app.routes, ∀ (w : World) (g : Globals) (c : Ctx) (m : Mongo),
      (∀ op ∈ (r.handler w g c).ops, op.isCount = true ∧ op.isWrite = false) ∧
      m.run (r.handler w g c).ops = m ∧
      (r.handler w g c).globals = g) ∧
    (main w0).globals = (connectMongo w0 { client := none }).globals := by
  constructor
  · intro r hmem w g c m
    rcases main_routes_cases w0 with h | h
    · rw [h] at hmem
      exact absurd hmem (List.not_mem_nil _)
    · rw [h] at hmem
      simp only [List.mem_cons, List.mem_singleton, List.not_mem_nil, or_false] at hmem
      have hhealth : (∀ op ∈ (healthHandler w g c).ops,
            op.isCount = true ∧ op.isWrite = false) ∧
          m.run (healthHandler w g c).ops = m ∧ (healthHandler w g c).globals = g := by
        refine ⟨?_, rfl, rfl⟩
        intro op hop
        exact absurd hop (List.not_mem_nil _)
      have hclients : (∀ op ∈ (clientsHandler w g c).ops,
            op.isCount = true ∧ op.isWrite = false) ∧
          m.run (clientsHandler w g c).ops = m ∧ (clientsHandler w g c).globals = g := by
        cases hg : g.client with
        | none =>
          refine ⟨?_, ?_, ?_⟩
          · intro op hop
            simp [clientsHandler, hg] at hop
          · simp [clientsHandler, hg, Mongo.run]
          · simp [clientsHandler, hg]
        | some cl =>
          rw [clientsHandler_of_client w g cl c hg]
          refine ⟨?_, rfl, rfl⟩
          intro op hop
          simp only [List.mem_singleton] at hop
          subst hop
          exact ⟨rfl, rfl⟩
      rcases hmem with rfl | rfl | rfl | rfl
      · exact hhealth
      · exact hhealth
      · exact hclients
      · exact hclients
  · by_cases hr : (connectMongo w0 { client := none }).outcome = .returned
    · exact (main_of_returned w0 hr).2.1
    · exact (main_of_exited w0 1 (connectMongo_exited_of_not_returned w0 _ hr)).2.2.1

/-- Witness of C6: the `/clients` route of `main` in `okWorld`, run on the
server with two documents, leaves that server state unchanged. -/
theorem handlers_are_read_only_witness :
    upMongo.run (clientsHandler okWorld connectedGlobals (acquireCtx clientsRequest)).ops =
      upMongo ∧
    (clientsHandler okWorld connectedGlobals (acquireCtx clientsRequest)).globals =
      connectedGlobals :=
  ((handlers_are_read_only okWorld).1
      { method := "GET", path := "/clients", handler := clientsHandler }
      (by rw [(main_of_returned okWorld (by decide)).1]; simp)
      okWorld connectedGlobals (acquireCtx clientsRequest) upMongo).2

/-- C10. Once the global client is assigned, whatever pair `(count, err)`
`CountDocuments` gives, the `/clients` handler returns a nil error with status
200 and the JSON body `"clients_count": count`: the error is not looked at.
Two worlds whose counts agree get the same run whatever their errors are; and
on the modelled server, an unreachable database gets exactly the run of a
reachable database whose collection is empty. -/
theorem clients_handler_hides_count_error (w : World) (g : Globals) (cl : Client)
    (req : Request) (hc : g.client = some cl) :
    (clientsHandler w g (acquireCtx req)).outcome = .returned none ∧
    (clientsHandler w g (acquireCtx req)).ctx.resp.status = 200 ∧
    (clientsHandler w g (acquireCtx req)).ctx.resp.json =
      some [("clients_count",
        .int (w.countDocuments cl "clientsdb" "clients" .background []).1)] ∧
    (∀ w2 : World,
      (w2.countDocuments cl "clientsdb" "clients" .background []).1 =
        (w.countDocuments cl "clientsdb" "clients" .background []).1 →
      clientsHandler w2 g (acquireCtx req) = clientsHandler w g (acquireCtx req)) ∧
    (∀ m : Mongo, m.reachable = false →
      (m.countDocuments cl "clientsdb" "clients" .background []).2 ≠ none ∧
      clientsHandler (w.onMongo m) g (acquireCtx req) =
        clientsHandler (w.onMongo { reachable := true, colls := [] }) g (acquireCtx req)) := by
  refine ⟨?_, ?_, ?_, ?_, ?_⟩
  · rw [clientsHandler_of_client w g cl _ hc]
  · rw [clientsHandler_of_client w g cl _ hc]
    rfl
  · rw [clientsHandler_of_client w g cl _ hc]
    rfl
  · intro w2 h
    rw [clientsHandler_of_client w g cl _ hc, clientsHandler_of_client w2 g cl _ hc, h]
  · intro m hm
    constructor
    · simp [Mongo.countDocuments, hm]
    · rw [clientsHandler_of_client _ g cl _ hc, clientsHandler_of_client _ g cl _ hc]
      simp [World.onMongo, Mongo.countDocuments, hm, Mongo.docs]

/-- Witness of C10: in a world whose count fails with `(0, err)` the handler
answers 200 with `"clients_count": 0`. -/
theorem clients_handler_hides_count_error_witness :
    connectedGlobals.client = some { handle := 1 } ∧
    (countFailWorld.countDocuments { handle := 1 } "clientsdb" "clients" .background []).2 ≠
      none ∧
    (clientsHandler countFailWorld connectedGlobals (acquireCtx clientsRequest)).ctx.resp.status
      = 200 ∧
    (clientsHandler countFailWorld connectedGlobals (acquireCtx clientsRequest)).ctx.resp.json
      = some [("clients_count", .int 0)] :=
  ⟨rfl, by decide,
   (clients_handler_hides_count_error countFailWorld connectedGlobals { handle := 1 }
      clientsRequest rfl).2.1,
   (clients_handler_hides_count_error countFailWorld connectedGlobals { handle := 1 }
      clientsRequest rfl).2.2.1⟩

end ClientApi
